import Mathlib

/-!
# Verification of the GlobeMap projection/render/navigation engine

Shallow embedding of `src/GlobeMap.js` (class `GlobeMap`).  The world
dataset, the region table and the d3 geometry library are external
collaborators of the engine; they appear here as explicit state fields
(`countriesGeoJson`, `regionCountryMap`) and as a `GeoLib` record of
abstract geometry capabilities.  Machine state mutated by the class
(`highlightedCountries`, `zoom`, projection rotation/scale, the active
transition) is carried in an explicit `GlobeState` record; calls to
`this.render()` are counted, and `console.log` calls are accumulated in
`logs`.
-/

namespace GlobeMap

/-- A country feature of the world dataset: `properties.id` and
`properties.name`. -/
structure Country where
  id : Nat
  name : String
deriving DecidableEq, Repr

/-- An element of `this.highlightedCountries`, as pushed by
`highlightCountry`. -/
structure HighlightEntry where
  id : Nat
  name : String
  color : String
  geojson : Country
deriving DecidableEq, Repr

/-- The style settings relevant to `render()` (`this.settings`), after the
merge with `defaultSettings`.  `globeFillStyle` is `null`able in the
source. -/
structure Settings where
  highlightColor : String
  globeFillStyle : Option String
  globeStrokeStyle : String
  globeStrokeWidth : ℚ
  landFillStyle : String
  landStrokeStyle : String
  landStrokeWidth : ℚ
  bordersStrokeStyle : String
  bordersStrokeWidth : ℚ
deriving DecidableEq, Repr

/-- An in-flight d3 transition started by `zoomOnCountry` or `setZoom`:
the rotation interpolation (start, target) built from `geoInterpolate`,
and the scale interpolation (start, target) built from d3 numeric
`interpolate`, each present only when that dimension is animated. -/
structure ZoomSession where
  rotAnim : Option ((ℚ × ℚ) × (ℚ × ℚ))
  scaleAnim : Option (ℚ × ℚ)
deriving DecidableEq, Repr

/-- The mutable per-instance state of a `GlobeMap` object.  `gen` is the
identity of the currently active transition: d3 transitions on the shared
root element supersede one another, so a step callback belonging to an
older generation no longer fires (latest session wins).  `renders` counts
calls to `this.render()`; `logs` collects `console.log` output. -/
structure GlobeState where
  countriesGeoJson : List Country
  regionCountryMap : List (String × List String)
  settings : Settings
  highlightedCountries : List HighlightEntry
  zoom : ℚ
  rotation : ℚ × ℚ
  scale : ℚ
  baseProjectionScale : ℚ
  viewportWidth : ℚ
  viewportHeight : ℚ
  zoomedCountry : Option String
  gen : Nat
  session : Option ZoomSession
  renders : Nat
  logs : List String
deriving DecidableEq, Repr

/-- The d3-geo capabilities the engine calls through a well-defined
interface: `geoCentroid`, `geoInterpolate`, and the scale of a
`geoOrthographic().fitExtent(viewport, countryGeoJson)` projection. -/
structure GeoLib where
  centroid : Country → ℚ × ℚ
  geoInterpolate : ℚ × ℚ → ℚ × ℚ → ℚ → ℚ × ℚ
  fitScale : ℚ × ℚ → Country → ℚ

/-- d3-interpolate numeric interpolation: `a + (b - a) * t`. -/
def d3interpolateNumber (a b t : ℚ) : ℚ := a + (b - a) * t

/-- ASCII case folding of a single character, as
`String.prototype.toLowerCase` acts on the dataset's names. -/
def lowerChar (c : Char) : Char :=
  if 65 ≤ c.toNat ∧ c.toNat ≤ 90 then Char.ofNat (c.toNat + 32) else c

/-- JS `s.toLowerCase()` on the ASCII names this engine handles. -/
def jsToLower (s : String) : String := ⟨s.data.map lowerChar⟩

/-- `getCountryGeoJson(countryName)`: lowercase the input and return the
first country whose lowercased dataset name matches; `Array.find` yields
`undefined` (`none`) on a miss. -/
def getCountryGeoJson (st : GlobeState) (countryName : String) : Option Country :=
  let key := jsToLower countryName
  st.countriesGeoJson.find? (fun c => jsToLower c.name == key)

/-- `isCountryHighlighted(countryName)`.  When the lookup succeeds the
function returns `false` exactly when no highlighted entry carries the
resolved id.  When the lookup yields `undefined` the guard
`countryGeoJson !== undefined` fails and control falls through to the
final `return true`. -/
def isCountryHighlighted (st : GlobeState) (countryName : String) : Bool :=
  match getCountryGeoJson st countryName with
  | some cg =>
    match st.highlightedCountries.find? (fun e => e.id == cg.id) with
    | none => false
    | some _ => true
  | none => true

/-- JS `color || this.settings.highlightColor`: `undefined` and the empty
string are falsy. -/
def colorOrDefault (color : Option String) (dflt : String) : String :=
  match color with
  | none => dflt
  | some c => if c = "" then dflt else c

/-- `highlightCountry(countryName, color, render = true)`.  The source
guards with `countryGeoJson !== null`, which also holds for `undefined`
(a miss): in that case `isCountryHighlighted` returns `true`, so nothing
is pushed, nothing is rendered, and the `console.log` in the `else`
branch is unreachable. -/
def highlightCountry (st : GlobeState) (countryName : String) (color : Option String)
    (render : Bool := true) : GlobeState :=
  match getCountryGeoJson st countryName with
  | some cg =>
    if isCountryHighlighted st countryName then st
    else
      { st with
        highlightedCountries := st.highlightedCountries ++
          [{ id := cg.id, name := jsToLower countryName,
             color := colorOrDefault color st.settings.highlightColor, geojson := cg }],
        renders := if render then st.renders + 1 else st.renders }
  | none => st

/-- The scan of `unhighlightCountry`: remove the first entry whose stored
name equals the key, report whether one was removed (the loop `break`s
after the first splice). -/
def removeFirstHighlightByName : List HighlightEntry → String → List HighlightEntry × Bool
  | [], _ => ([], false)
  | e :: rest, key =>
    if e.name == key then (rest, true)
    else
      let r := removeFirstHighlightByName rest key
      (e :: r.1, r.2)

/-- `unhighlightCountry(name, render = true)`: linear scan comparing each
stored (lowercase) name with `name.toLowerCase()`; on the first match,
splice it out, render if requested, and stop. -/
def unhighlightCountry (st : GlobeState) (name : String) (render : Bool := true) : GlobeState :=
  let r := removeFirstHighlightByName st.highlightedCountries (jsToLower name)
  if r.2 then
    { st with highlightedCountries := r.1,
              renders := if render then st.renders + 1 else st.renders }
  else st

/-- `REGION_COUNTRY_MAP[regionName]`: exact (case-sensitive) key access
into the region table. -/
def lookupRegion (st : GlobeState) (regionName : String) : Option (List String) :=
  (st.regionCountryMap.find? (fun p => p.1 == regionName)).map (·.2)

/-- `highlightRegion(regionName, color)`: on a hit, fan out
`highlightCountry(country, color, false)` over the members in order, then
render once; on a miss, log. -/
def highlightRegion (st : GlobeState) (regionName : String) (color : Option String) :
    GlobeState :=
  match lookupRegion st regionName with
  | some countries =>
    let st1 := countries.foldl (fun s c => highlightCountry s c color false) st
    { st1 with renders := st1.renders + 1 }
  | none =>
    { st with logs := st.logs ++
        ["The region of " ++ regionName ++ " was not found in the continent list"] }

/-- The `zoom` argument of `zoomOnCountry`: the string `'auto'`, a
number, or any other non-number value (`typeof zoom === 'number'` fails). -/
inductive ZoomArg where
  | auto : ZoomArg
  | num : ℚ → ZoomArg
  | other : ZoomArg
deriving DecidableEq, Repr

/-- The hand-tuned `predefinedFillZoomLevels` table of
`calculateZoomLevelForFullscreenCountry`. -/
def predefinedFillZoomLevels : List (String × ℚ) :=
  [("australia", 5/2), ("germany", 14), ("ireland", 20),
   ("mexico", 19/5), ("sweden", 8), ("united states", 2)]

/-- The unclamped zoom level of
`calculateZoomLevelForFullscreenCountry(countryName, countryGeoJson)`:
take the table value on a hit (all table values are truthy), otherwise
the ratio of the scale of an orthographic projection fitted to the
country within the viewport to `baseProjectionScale`, times the
correction factor `0.65`. -/
def rawZoomLevel (geo : GeoLib) (st : GlobeState) (countryName : String)
    (countryGeoJson : Country) : ℚ :=
  match predefinedFillZoomLevels.find? (fun p => p.1 == countryName) with
  | some p => p.2
  | none =>
    geo.fitScale (st.viewportWidth, st.viewportHeight) countryGeoJson
      / st.baseProjectionScale * (65/100)

/-- `calculateZoomLevelForFullscreenCountry(countryName, countryGeoJson)`:
the raw zoom level, clamped so that results below `1` become `1`. -/
def calculateZoomLevelForFullscreenCountry (geo : GeoLib) (st : GlobeState)
    (countryName : String) (countryGeoJson : Country) : ℚ :=
  let zoomlevel : ℚ := rawZoomLevel geo st countryName countryGeoJson
  if zoomlevel < (1 : ℚ) then 1 else zoomlevel

/-- `zoomOnCountry(countryName, zoom = 'auto', offsetX = 0, offsetY = 0)`.
On a miss (`countryGeoJson !== undefined` fails) only a log is emitted.
On a hit the zoomed country is remembered, `'auto'` is replaced by the
computed zoom level, and a 1250 ms transition is started whose tween
interpolates the rotation from the current rotation to
`(-x - offsetX, -y - offsetY)` (with `(x, y)` the country centroid) and,
when the zoom is numeric, the scale from the current scale to
`baseProjectionScale * zoom`, also recording `this.zoom = zoom`.
Starting the transition supersedes any in-flight one (`gen` increments);
the tween factory reads the projection at transition start, which we
model as the moment of scheduling since nothing runs in between. -/
def zoomOnCountry (geo : GeoLib) (st : GlobeState) (countryName : String)
    (zoom : ZoomArg := .auto) (offsetX : ℚ := 0) (offsetY : ℚ := 0) : GlobeState :=
  match getCountryGeoJson st countryName with
  | some cg =>
    let st := { st with zoomedCountry := some countryName }
    let zoomN : ZoomArg :=
      match zoom with
      | .auto => .num (calculateZoomLevelForFullscreenCountry geo st countryName cg)
      | z => z
    let c := geo.centroid cg
    let target : ℚ × ℚ := (-c.1 - offsetX, -c.2 - offsetY)
    match zoomN with
    | .num z =>
      let sess : ZoomSession :=
        { rotAnim := some (st.rotation, target),
          scaleAnim := some (st.scale, st.baseProjectionScale * z) }
      { st with zoom := z, gen := st.gen + 1, session := some sess }
    | _ =>
      let sess : ZoomSession := { rotAnim := some (st.rotation, target), scaleAnim := none }
      { st with gen := st.gen + 1, session := some sess }
  | none =>
    { st with logs := st.logs ++
        ["No iso code was found for " ++ countryName ++ " so cannot zoom on it."] }

/-- `setZoom(zoom = null)`: only acts when the argument is a number
different from the current zoom; records `this.zoom = zoom` and starts a
scale-only transition from the current scale to
`baseProjectionScale * zoom`. -/
def setZoom (st : GlobeState) (zoom : Option ℚ := none) : GlobeState :=
  match zoom with
  | some z =>
    if z ≠ st.zoom then
      let sess : ZoomSession :=
        { rotAnim := none, scaleAnim := some (st.scale, st.baseProjectionScale * z) }
      { st with zoom := z, gen := st.gen + 1, session := some sess }
    else st
  | none => st

/-- One tween callback invocation at normalized progress `t`: set the
rotation (and scale, if animated) on the projection and re-render. -/
def applyTween (geo : GeoLib) (s : ZoomSession) (t : ℚ) (st : GlobeState) : GlobeState :=
  let st1 :=
    match s.rotAnim with
    | some ab => { st with rotation := geo.geoInterpolate ab.1 ab.2 t }
    | none => st
  let st2 :=
    match s.scaleAnim with
    | some ab => { st1 with scale := d3interpolateNumber ab.1 ab.2 t }
    | none => st1
  { st2 with renders := st2.renders + 1 }

/-- A scheduled animation step keyed to transition generation `g`: d3
interrupts a transition when a newer one is scheduled on the same
element, so a step whose generation is no longer the current one does
not fire. -/
def stepTween (geo : GeoLib) (st : GlobeState) (g : Nat) (t : ℚ) : GlobeState :=
  if g = st.gen then
    match st.session with
    | some s => applyTween geo s t st
    | none => st
  else st

/-- The geometry handles `render()` passes to the path rasterizer: the
full sphere, the land outline, one country polygon (identified by the
country id of the highlight entry), or the border mesh. -/
inductive PathRef where
  | sphere : PathRef
  | land : PathRef
  | geo : Nat → PathRef
  | borders : PathRef
deriving DecidableEq, Repr

/-- One drawing-surface primitive issued by `render()`: the host 2D
context operations the source calls, in order. -/
inductive CanvasOp where
  | clearRect : CanvasOp
  | beginPath : CanvasOp
  | drawPath : PathRef → CanvasOp
  | setFillStyle : Option String → CanvasOp
  | setStrokeStyle : String → CanvasOp
  | setLineWidth : ℚ → CanvasOp
  | stroke : CanvasOp
  | fill : CanvasOp
deriving DecidableEq, Repr

/-- `render()`: the exact sequence of context operations of one call, in
source order — clear; sphere pass (stroke, then fill only when a globe
fill style is configured); land pass (fill, then stroke only when the
land stroke width is positive); one fill pass per highlighted country in
insertion order; border mesh stroke last. -/
def render (st : GlobeState) : List CanvasOp :=
  [CanvasOp.clearRect,
   CanvasOp.beginPath, CanvasOp.drawPath PathRef.sphere,
   CanvasOp.setFillStyle st.settings.globeFillStyle,
   CanvasOp.setStrokeStyle st.settings.globeStrokeStyle,
   CanvasOp.setLineWidth st.settings.globeStrokeWidth,
   CanvasOp.stroke]
  ++ (if st.settings.globeFillStyle ≠ none then [CanvasOp.fill] else [])
  ++ [CanvasOp.beginPath, CanvasOp.drawPath PathRef.land,
      CanvasOp.setFillStyle (some st.settings.landFillStyle),
      CanvasOp.setStrokeStyle st.settings.landStrokeStyle,
      CanvasOp.setLineWidth st.settings.landStrokeWidth,
      CanvasOp.fill]
  ++ (if 0 < st.settings.landStrokeWidth then [CanvasOp.stroke] else [])
  ++ (st.highlightedCountries.map fun e =>
        [CanvasOp.beginPath, CanvasOp.drawPath (PathRef.geo e.id),
         CanvasOp.setFillStyle (some e.color), CanvasOp.fill]).flatten
  ++ [CanvasOp.beginPath, CanvasOp.drawPath PathRef.borders,
      CanvasOp.setStrokeStyle st.settings.bordersStrokeStyle,
      CanvasOp.setLineWidth st.settings.bordersStrokeWidth,
      CanvasOp.stroke]

/-- An observable draw pass: a stroke or fill of the current path with
the styles in effect when `stroke()`/`fill()` ran. -/
inductive Pass where
  | strokePass : Option PathRef → String → ℚ → Pass
  | fillPass : Option PathRef → Option String → Pass
deriving DecidableEq, Repr

/-- The retained-state of the 2D context while replaying a command list:
current path, current styles, and the draw passes issued so far. -/
structure CanvasSim where
  curPath : Option PathRef
  fillS : Option String
  strokeS : String
  lineW : ℚ
  passes : List Pass
deriving DecidableEq, Repr

/-- Replay one context operation against the retained context state. -/
def paintStep (cs : CanvasSim) : CanvasOp → CanvasSim
  | CanvasOp.clearRect => cs
  | CanvasOp.beginPath => { cs with curPath := none }
  | CanvasOp.drawPath p => { cs with curPath := some p }
  | CanvasOp.setFillStyle c => { cs with fillS := c }
  | CanvasOp.setStrokeStyle c => { cs with strokeS := c }
  | CanvasOp.setLineWidth w => { cs with lineW := w }
  | CanvasOp.stroke =>
    { cs with passes := cs.passes ++ [Pass.strokePass cs.curPath cs.strokeS cs.lineW] }
  | CanvasOp.fill =>
    { cs with passes := cs.passes ++ [Pass.fillPass cs.curPath cs.fillS] }

/-- The 2D context defaults: no current path, black styles, line width 1. -/
def initCanvas : CanvasSim :=
  { curPath := none, fillS := some "#000000", strokeS := "#000000", lineW := 1, passes := [] }

/-- The sequence of draw passes a command list produces on a fresh
context. -/
def paintPasses (ops : List CanvasOp) : List Pass :=
  (ops.foldl paintStep initCanvas).passes

/-- The `defaultSettings` of the constructor. -/
def defaultSettings : Settings :=
  { highlightColor := "#F90",
    globeFillStyle := none, globeStrokeStyle := "#CCC", globeStrokeWidth := 3/2,
    landFillStyle := "#CCC", landStrokeStyle := "#000", landStrokeWidth := 0,
    bordersStrokeStyle := "#FFF", bordersStrokeWidth := 1 }

/-- A small concrete dataset used to exercise the operations on concrete
inputs (ids are the ISO numeric codes of the features). -/
def demoCountries : List Country :=
  [{ id := 276, name := "Germany" }, { id := 250, name := "France" },
   { id := 36, name := "Australia" }]

/-- A freshly initialized globe over the demo dataset: no highlights, no
in-flight transition, zoom factor 1 with `scale = baseProjectionScale`. -/
def demoState : GlobeState :=
  { countriesGeoJson := demoCountries,
    regionCountryMap := [("western europe", ["Germany", "France"])],
    settings := defaultSettings,
    highlightedCountries := [],
    zoom := 1, rotation := (0, 0), scale := 450, baseProjectionScale := 450,
    viewportWidth := 900, viewportHeight := 600,
    zoomedCountry := none, gen := 0, session := none, renders := 0, logs := [] }

/-- A concrete geometry library: centroids placed per country id, linear
interpolation (which, like d3's spherical interpolation, starts at the
start point at `t = 0` and reaches the target at `t = 1`), and a fixed
fitted scale. -/
def demoGeo : GeoLib :=
  { centroid := fun c => ((c.id : ℚ) / 10, (c.id : ℚ) / 20),
    geoInterpolate := fun a b t => (a.1 + (b.1 - a.1) * t, a.2 + (b.2 - a.2) * t),
    fitScale := fun _ c => (c.id : ℚ) * 10 }

/-- The invariant of the highlighted set in every reachable state: entry
ids are pairwise distinct (at most one entry per country id), and each
entry carries the id and the lowercased dataset name of a country of the
dataset (entries are only ever pushed by `highlightCountry` from a
successful lookup). -/
def HighlightInv (st : GlobeState) : Prop :=
  st.highlightedCountries.Pairwise (fun a b => a.id ≠ b.id) ∧
  ∀ e ∈ st.highlightedCountries,
    ∃ c ∈ st.countriesGeoJson, e.id = c.id ∧ e.name = jsToLower c.name

/-- The dataset assumption the spec states ("unique lowercase names"):
the lowercased name determines the country id. -/
def UniqueLowerNames (l : List Country) : Prop :=
  ∀ c1 ∈ l, ∀ c2 ∈ l, jsToLower c1.name = jsToLower c2.name → c1.id = c2.id

/-- The converse dataset assumption: the id determines the lowercased
name (no two dataset features share an id under different names). -/
def IdDeterminesName (l : List Country) : Prop :=
  ∀ c1 ∈ l, ∀ c2 ∈ l, c1.id = c2.id → jsToLower c1.name = jsToLower c2.name

/-! ## Basic lemmas: which fields each operation can touch -/

theorem highlightCountry_countriesGeoJson (st : GlobeState) (n : String) (c : Option String)
    (r : Bool) : (highlightCountry st n c r).countriesGeoJson = st.countriesGeoJson := by
  unfold highlightCountry
  cases getCountryGeoJson st n <;> simp only []
  split <;> rfl

theorem unhighlightCountry_countriesGeoJson (st : GlobeState) (n : String) (r : Bool) :
    (unhighlightCountry st n r).countriesGeoJson = st.countriesGeoJson := by
  simp only [unhighlightCountry]
  split <;> rfl

theorem getCountryGeoJson_congr {st st' : GlobeState} (n : String)
    (h : st'.countriesGeoJson = st.countriesGeoJson) :
    getCountryGeoJson st' n = getCountryGeoJson st n := by
  unfold getCountryGeoJson
  rw [h]

theorem getCountryGeoJson_key_congr (st : GlobeState) {n m : String}
    (h : jsToLower n = jsToLower m) :
    getCountryGeoJson st n = getCountryGeoJson st m := by
  unfold getCountryGeoJson
  rw [h]

/-! ## C2: what `isCountryHighlighted` computes -/

/-- C2 (amended): when the name resolves to a country,
`isCountryHighlighted` returns `true` iff the highlighted set holds an
entry with the resolved country's id; when the name resolves to no
country, it returns `true` (the source falls through to `return true`),
not `false` as claimed. -/
theorem isCountryHighlighted_characterization (st : GlobeState) (n : String) :
    (∀ c, getCountryGeoJson st n = some c →
      (isCountryHighlighted st n = true ↔ ∃ e ∈ st.highlightedCountries, e.id = c.id)) ∧
    (getCountryGeoJson st n = none → isCountryHighlighted st n = true) := by
  constructor
  · intro c hc
    unfold isCountryHighlighted
    rw [hc]
    dsimp only
    cases hfind : st.highlightedCountries.find? (fun e => e.id == c.id) with
    | none =>
      constructor
      · intro h
        simp at h
      · rintro ⟨e, he, hid⟩
        have := List.find?_eq_none.mp hfind e he
        simp [hid] at this
    | some e =>
      constructor
      · intro _
        refine ⟨e, List.mem_of_find?_eq_some hfind, ?_⟩
        simpa using List.find?_some hfind
      · intro _
        rfl
  · intro h
    unfold isCountryHighlighted
    rw [h]

/-- C2, counterexample to the claim as stated: "atlantis" resolves to no
country in the demo dataset, yet `isCountryHighlighted` returns `true`,
not `false`. -/
theorem isCountryHighlighted_unresolved_cex :
    getCountryGeoJson demoState "atlantis" = none ∧
    isCountryHighlighted demoState "atlantis" = true := by
  exact ⟨by decide, by decide⟩

/-- C2 witness: the characterization applied to the demo state and a
resolvable name. -/
theorem isCountryHighlighted_characterization_witness :
    isCountryHighlighted demoState "Germany" = false := by
  have h := (isCountryHighlighted_characterization demoState "Germany").1
    { id := 276, name := "Germany" } (by decide)
  rw [← Bool.not_eq_true]
  intro htrue
  rcases h.mp htrue with ⟨e, he, _⟩
  simp [demoState] at he

/-! ## C3: `highlightCountry` on an unknown name -/

/-- C3: for a name resolving to no country, `highlightCountry` is a
complete no-op — highlighted set unchanged, no render, no exception —
but, contrary to the claim and the source's own unreachable
`console.log` branch (the guard `countryGeoJson !== null` also accepts
`undefined`), nothing is logged: the state is unchanged, logs included. -/
theorem highlightCountry_unknown_silently_noop :
    getCountryGeoJson demoState "atlantis" = none ∧
    highlightCountry demoState "atlantis" (some "red") = demoState ∧
    (highlightCountry demoState "atlantis" (some "red")).logs = [] := by
  exact ⟨by decide, rfl, rfl⟩

/-! ## C4: `zoomOnCountry` on an unknown name -/

/-- C4: for a name resolving to no country, `zoomOnCountry` only appends
a log message; rotation, scale, zoom factor, the session/generation and
the remembered zoomed country are all untouched. -/
theorem zoomOnCountry_unknown_only_logs (geo : GeoLib) (st : GlobeState) (n : String)
    (z : ZoomArg) (ox oy : ℚ) (h : getCountryGeoJson st n = none) :
    zoomOnCountry geo st n z ox oy =
      { st with logs := st.logs ++
          ["No iso code was found for " ++ n ++ " so cannot zoom on it."] } := by
  unfold zoomOnCountry
  rw [h]

/-- C4 witness: zooming on "atlantis" from the demo state leaves the
projection state unchanged and only logs. -/
theorem zoomOnCountry_unknown_only_logs_witness :
    zoomOnCountry demoGeo demoState "atlantis" ZoomArg.auto 0 0 =
      { demoState with logs := demoState.logs ++
          ["No iso code was found for " ++ "atlantis" ++ " so cannot zoom on it."] } :=
  zoomOnCountry_unknown_only_logs demoGeo demoState "atlantis" ZoomArg.auto 0 0 (by decide)

/-! ## C8: the auto-zoom computation -/

/-- C8: with `zoom = 'auto'`, the zoom factor used by `zoomOnCountry` is
`calculateZoomLevelForFullscreenCountry`; that computation returns the
hand-tuned table value exactly when the name is in the override table,
and otherwise the fitted-scale-to-baseScale ratio times the correction
factor `0.65`, clamped to a minimum of 1 in both paths (the table values
are all at least 1, so clamping them is the identity). -/
theorem autoZoom_characterization (geo : GeoLib) (st : GlobeState) (name : String)
    (cg : Country) :
    (∀ p, predefinedFillZoomLevels.find? (fun q => q.1 == name) = some p →
        calculateZoomLevelForFullscreenCountry geo st name cg = p.2) ∧
    (predefinedFillZoomLevels.find? (fun q => q.1 == name) = none →
        calculateZoomLevelForFullscreenCountry geo st name cg =
          max 1 (geo.fitScale (st.viewportWidth, st.viewportHeight) cg
                  / st.baseProjectionScale * (65/100))) ∧
    (∀ ox oy : ℚ, ∀ cg', getCountryGeoJson st name = some cg' →
        (zoomOnCountry geo st name ZoomArg.auto ox oy).zoom =
          calculateZoomLevelForFullscreenCountry geo st name cg') := by
  refine ⟨?_, ?_, ?_⟩
  · intro p hp
    have hmem := List.mem_of_find?_eq_some hp
    have hge : (1 : ℚ) ≤ p.2 := by
      fin_cases hmem <;> norm_num
    unfold calculateZoomLevelForFullscreenCountry rawZoomLevel
    rw [hp]
    dsimp only
    rw [if_neg (not_lt.mpr hge)]
  · intro hp
    unfold calculateZoomLevelForFullscreenCountry rawZoomLevel
    rw [hp]
    dsimp only
    rcases lt_or_le (geo.fitScale (st.viewportWidth, st.viewportHeight) cg
        / st.baseProjectionScale * (65/100)) 1 with h | h
    · rw [if_pos h]
      exact (max_eq_left h.le).symm
    · rw [if_neg (not_lt.mpr h)]
      exact (max_eq_right h).symm
  · intro ox oy cg' h
    unfold zoomOnCountry
    rw [h]
    rfl

/-- C8 witness: "germany" is in the override table with value 14, and the
auto zoom returns exactly 14 on the demo state. -/
theorem autoZoom_characterization_witness :
    calculateZoomLevelForFullscreenCountry demoGeo demoState "germany"
      { id := 276, name := "Germany" } = 14 :=
  (autoZoom_characterization demoGeo demoState "germany" { id := 276, name := "Germany" }).1
    ("germany", 14) rfl

/-! ## C5: the zoom-factor clamp -/

/-- C5, counterexample to the claim as stated: `setZoom(0.5)` stores the
zoom factor 1/2 unclamped, so the claimed invariant `zoomFactor >= 1`
fails immediately after a public operation. -/
theorem setZoom_no_clamp_cex :
    (setZoom demoState (some (1/2))).zoom = 1/2 ∧
    ¬ (1 ≤ (setZoom demoState (some (1/2))).zoom) := by
  constructor <;> norm_num [setZoom, demoState]

/-- C5 (amended): only the auto-zoom computation clamps values below 1
up to 1; `setZoom` (and `zoomOnCountry` with a numeric factor) stores
the requested factor unclamped, and when its animation completes the
scale equals `baseScale * zoomFactor` for that unclamped factor. -/
theorem zoom_clamp_only_in_auto (geo : GeoLib) (st : GlobeState) (name : String)
    (cg : Country) (z : ℚ) (hz : z ≠ st.zoom) :
    1 ≤ calculateZoomLevelForFullscreenCountry geo st name cg ∧
    (setZoom st (some z)).zoom = z ∧
    (stepTween geo (setZoom st (some z)) (setZoom st (some z)).gen 1).scale =
      st.baseProjectionScale * z := by
  refine ⟨?_, ?_, ?_⟩
  · unfold calculateZoomLevelForFullscreenCountry
    dsimp only
    split
    · exact le_refl 1
    · exact le_of_not_lt (by assumption)
  · unfold setZoom
    dsimp only
    rw [if_pos hz]
  · unfold setZoom
    dsimp only
    rw [if_pos hz]
    unfold stepTween
    dsimp only
    rw [if_pos rfl]
    unfold applyTween d3interpolateNumber
    dsimp only
    ring

/-- C5 witness: the amended statement at the demo state with requested
factor 3. -/
theorem zoom_clamp_only_in_auto_witness :
    1 ≤ calculateZoomLevelForFullscreenCountry demoGeo demoState "germany"
          { id := 276, name := "Germany" } ∧
    (setZoom demoState (some 3)).zoom = 3 ∧
    (stepTween demoGeo (setZoom demoState (some 3)) (setZoom demoState (some 3)).gen 1).scale =
      demoState.baseProjectionScale * 3 :=
  zoom_clamp_only_in_auto demoGeo demoState "germany" { id := 276, name := "Germany" } 3
    (by norm_num [demoState])

/-! ## C6: region highlight batching -/

theorem highlightCountry_renders_shift (s : GlobeState) (m : String) (c : Option String)
    (k : Nat) :
    highlightCountry { s with renders := k } m c false =
      { highlightCountry s m c true with renders := k } := by
  have hg : getCountryGeoJson { s with renders := k } m = getCountryGeoJson s m := rfl
  have hh : isCountryHighlighted { s with renders := k } m = isCountryHighlighted s m := rfl
  unfold highlightCountry
  rw [hg, hh]
  cases getCountryGeoJson s m with
  | none => rfl
  | some cg =>
    dsimp only
    by_cases hH : isCountryHighlighted s m
    · rw [if_pos hH, if_pos hH]
    · rw [if_neg hH, if_neg hH]
      rfl

theorem foldl_highlight_renders_shift (members : List String) (c : Option String) :
    ∀ (s : GlobeState) (k : Nat),
      members.foldl (fun a m => highlightCountry a m c false) { s with renders := k } =
        { members.foldl (fun a m => highlightCountry a m c true) s with renders := k } := by
  induction members with
  | nil => intro s k; rfl
  | cons m ms ih =>
    intro s k
    show ms.foldl (fun a m => highlightCountry a m c false)
        (highlightCountry { s with renders := k } m c false) = _
    rw [highlightCountry_renders_shift]
    exact ih (highlightCountry s m c true) k

/-- C6: for a region present in the region table, `highlightRegion`
leaves exactly the same highlighted set as calling `highlightCountry`
(with its default `render = true`) once per member in order, and it
performs exactly one render, not one per member. -/
theorem highlightRegion_batches (st : GlobeState) (regionName : String)
    (color : Option String) (members : List String)
    (h : lookupRegion st regionName = some members) :
    (highlightRegion st regionName color).highlightedCountries =
      (members.foldl (fun s m => highlightCountry s m color true) st).highlightedCountries ∧
    (highlightRegion st regionName color).renders = st.renders + 1 := by
  unfold highlightRegion
  rw [h]
  dsimp only
  have key := foldl_highlight_renders_shift members color st st.renders
  rw [show ({ st with renders := st.renders } : GlobeState) = st from rfl] at key
  rw [key]
  exact ⟨rfl, rfl⟩

/-- C6 witness: the "western europe" region of the demo table. -/
theorem highlightRegion_batches_witness :
    (highlightRegion demoState "western europe" (some "blue")).highlightedCountries =
      (["Germany", "France"].foldl
        (fun s m => highlightCountry s m (some "blue") true) demoState).highlightedCountries ∧
    (highlightRegion demoState "western europe" (some "blue")).renders =
      demoState.renders + 1 :=
  highlightRegion_batches demoState "western europe" (some "blue") ["Germany", "France"]
    (by decide)

/-! ## C7: the order of draw passes in `render()` -/

theorem foldl_paintStep_highlight_ops (entries : List HighlightEntry) :
    ∀ cs : CanvasSim, ∃ p f,
      ((entries.map fun e =>
          [CanvasOp.beginPath, CanvasOp.drawPath (PathRef.geo e.id),
           CanvasOp.setFillStyle (some e.color), CanvasOp.fill]).flatten).foldl paintStep cs =
        { curPath := p, fillS := f, strokeS := cs.strokeS, lineW := cs.lineW,
          passes := cs.passes ++
            entries.map fun e => Pass.fillPass (some (PathRef.geo e.id)) (some e.color) } := by
  induction entries with
  | nil =>
    intro cs
    refine ⟨cs.curPath, cs.fillS, ?_⟩
    cases cs
    simp
  | cons e es ih =>
    intro cs
    have step :
        ([CanvasOp.beginPath, CanvasOp.drawPath (PathRef.geo e.id),
          CanvasOp.setFillStyle (some e.color), CanvasOp.fill]).foldl paintStep cs =
          { curPath := some (PathRef.geo e.id), fillS := some e.color,
            strokeS := cs.strokeS, lineW := cs.lineW,
            passes := cs.passes ++
              [Pass.fillPass (some (PathRef.geo e.id)) (some e.color)] } := rfl
    obtain ⟨p, f, hes⟩ := ih
      { curPath := some (PathRef.geo e.id), fillS := some e.color,
        strokeS := cs.strokeS, lineW := cs.lineW,
        passes := cs.passes ++ [Pass.fillPass (some (PathRef.geo e.id)) (some e.color)] }
    refine ⟨p, f, ?_⟩
    rw [List.map_cons, List.flatten_cons, List.foldl_append, step, hes]
    simp

/-- C7: every `render()` issues, after clearing, exactly these draw
passes in this order: the globe sphere stroke; a sphere fill only when a
globe fill style is configured; the land fill; a land stroke only when
the configured land stroke width is positive; one fill-only pass per
highlighted country in insertion order, each with that entry's color; and
the border mesh stroke last. -/
theorem render_pass_order (st : GlobeState) :
    paintPasses (render st) =
      [Pass.strokePass (some PathRef.sphere) st.settings.globeStrokeStyle
         st.settings.globeStrokeWidth]
      ++ (if st.settings.globeFillStyle ≠ none then
            [Pass.fillPass (some PathRef.sphere) st.settings.globeFillStyle] else [])
      ++ [Pass.fillPass (some PathRef.land) (some st.settings.landFillStyle)]
      ++ (if 0 < st.settings.landStrokeWidth then
            [Pass.strokePass (some PathRef.land) st.settings.landStrokeStyle
               st.settings.landStrokeWidth] else [])
      ++ (st.highlightedCountries.map fun e =>
            Pass.fillPass (some (PathRef.geo e.id)) (some e.color))
      ++ [Pass.strokePass (some PathRef.borders) st.settings.bordersStrokeStyle
            st.settings.bordersStrokeWidth] := by
  unfold paintPasses render
  by_cases hf : st.settings.globeFillStyle ≠ none <;>
    by_cases hl : 0 < st.settings.landStrokeWidth
  all_goals
    first
      | rw [if_pos hf, if_pos hf, if_pos hl, if_pos hl]
      | rw [if_pos hf, if_pos hf, if_neg hl, if_neg hl]
      | rw [if_neg hf, if_neg hf, if_pos hl, if_pos hl]
      | rw [if_neg hf, if_neg hf, if_neg hl, if_neg hl]
  all_goals
    rw [List.foldl_append, List.foldl_append, List.foldl_append, List.foldl_append,
        List.foldl_append]
    simp only [List.foldl_cons, List.foldl_nil, paintStep]
    obtain ⟨p, f, hH⟩ := foldl_paintStep_highlight_ops st.highlightedCountries _
    rw [hH]
    simp only [List.foldl_cons, List.foldl_nil, paintStep]
    simp [List.append_assoc, initCanvas]

/-! ## C9, C10: the navigation tween -/

theorem zoomOnCountry_hit_state (geo : GeoLib) (st : GlobeState) (name : String)
    (cg : Country) (z ox oy : ℚ) (h : getCountryGeoJson st name = some cg) :
    zoomOnCountry geo st name (ZoomArg.num z) ox oy =
      { st with
        zoomedCountry := some name,
        zoom := z,
        gen := st.gen + 1,
        session := some (ZoomSession.mk
          (some (st.rotation, (-(geo.centroid cg).1 - ox, -(geo.centroid cg).2 - oy)))
          (some (st.scale, st.baseProjectionScale * z))) } := by
  unfold zoomOnCountry
  rw [h]

theorem applyTween_preserves (geo : GeoLib) (s : ZoomSession) (t : ℚ) (st : GlobeState) :
    (applyTween geo s t st).countriesGeoJson = st.countriesGeoJson ∧
    (applyTween geo s t st).gen = st.gen ∧
    (applyTween geo s t st).baseProjectionScale = st.baseProjectionScale := by
  unfold applyTween
  cases s with
  | mk rotAnim scaleAnim => cases rotAnim <;> cases scaleAnim <;> exact ⟨rfl, rfl, rfl⟩

theorem stepTween_preserves (geo : GeoLib) (st : GlobeState) (g : Nat) (t : ℚ) :
    (stepTween geo st g t).countriesGeoJson = st.countriesGeoJson ∧
    (stepTween geo st g t).gen = st.gen ∧
    (stepTween geo st g t).baseProjectionScale = st.baseProjectionScale := by
  unfold stepTween
  split
  · split
    · exact applyTween_preserves geo _ t st
    · exact ⟨rfl, rfl, rfl⟩
  · exact ⟨rfl, rfl, rfl⟩

theorem stepTween_one_rotation_scale (geo : GeoLib) (st : GlobeState) (a b : ℚ × ℚ)
    (c d : ℚ)
    (hs : st.session = some { rotAnim := some (a, b), scaleAnim := some (c, d) })
    (hI : ∀ x y, geo.geoInterpolate x y 1 = y) :
    (stepTween geo st st.gen 1).rotation = b ∧ (stepTween geo st st.gen 1).scale = d := by
  unfold stepTween
  rw [if_pos rfl, hs]
  unfold applyTween d3interpolateNumber
  dsimp only
  exact ⟨hI a b, by ring⟩

theorem foldl_stepTween_stale (geo : GeoLib) (ts : List ℚ) :
    ∀ (s : GlobeState) (g : Nat), g ≠ s.gen →
      ts.foldl (fun a t => stepTween geo a g t) s = s := by
  induction ts with
  | nil => intro s g _; rfl
  | cons t ts ih =>
    intro s g hg
    have hstep : stepTween geo s g t = s := by
      unfold stepTween
      rw [if_neg hg]
    show ts.foldl (fun a t => stepTween geo a g t) (stepTween geo s g t) = s
    rw [hstep]
    exact ih s g hg

/-- C9: after `zoomOnCountry(name, z, ox, oy)` with numeric `z`, applying
the session's tween at progress `t = 1` puts the projection at scale
`baseScale * z` and at rotation equal to the negated centroid of the
country's polygon adjusted by the negated offsets. -/
theorem zoomOnCountry_completion (geo : GeoLib) (st : GlobeState) (name : String)
    (cg : Country) (z ox oy : ℚ)
    (h : getCountryGeoJson st name = some cg)
    (hI : ∀ a b, geo.geoInterpolate a b 1 = b) :
    (stepTween geo (zoomOnCountry geo st name (ZoomArg.num z) ox oy)
        (zoomOnCountry geo st name (ZoomArg.num z) ox oy).gen 1).rotation =
      (-(geo.centroid cg).1 - ox, -(geo.centroid cg).2 - oy) ∧
    (stepTween geo (zoomOnCountry geo st name (ZoomArg.num z) ox oy)
        (zoomOnCountry geo st name (ZoomArg.num z) ox oy).gen 1).scale =
      st.baseProjectionScale * z := by
  rw [zoomOnCountry_hit_state geo st name cg z ox oy h]
  exact stepTween_one_rotation_scale geo _ _ _ _ _ rfl hI

/-- C9 witness: zooming on the demo dataset's France with factor 7 and
offsets (1, 2) ends at the negated offset-adjusted centroid and at scale
`450 * 7`. -/
theorem zoomOnCountry_completion_witness :
    (stepTween demoGeo (zoomOnCountry demoGeo demoState "France" (ZoomArg.num 7) 1 2)
        (zoomOnCountry demoGeo demoState "France" (ZoomArg.num 7) 1 2).gen 1).rotation =
      (-(demoGeo.centroid { id := 250, name := "France" }).1 - 1,
       -(demoGeo.centroid { id := 250, name := "France" }).2 - 2) ∧
    (stepTween demoGeo (zoomOnCountry demoGeo demoState "France" (ZoomArg.num 7) 1 2)
        (zoomOnCountry demoGeo demoState "France" (ZoomArg.num 7) 1 2).gen 1).scale =
      demoState.baseProjectionScale * 7 :=
  zoomOnCountry_completion demoGeo demoState "France" { id := 250, name := "France" } 7 1 2
    (by decide)
    (by intro a b; apply Prod.ext <;> simp [demoGeo])

/-- C10: starting a zoom to a second country while a first zoom is in
flight supersedes the first session: steps keyed to the superseded
session (fired after the new one started, at any progress values) leave
the state untouched, and completing the new session puts the projection
at the second country's target rotation and scale only. -/
theorem latest_session_wins (geo : GeoLib) (st : GlobeState) (n1 n2 : String)
    (c1 c2 : Country) (z1 z2 t0 : ℚ) (ts : List ℚ) (stG mid stF : GlobeState)
    (h1 : getCountryGeoJson st n1 = some c1)
    (h2 : getCountryGeoJson st n2 = some c2)
    (hI : ∀ a b, geo.geoInterpolate a b 1 = b)
    (hG : stG = zoomOnCountry geo st n1 (ZoomArg.num z1) 0 0)
    (hM : mid = stepTween geo stG stG.gen t0)
    (hF : stF = zoomOnCountry geo mid n2 (ZoomArg.num z2) 0 0) :
    ts.foldl (fun s t => stepTween geo s stG.gen t) stF = stF ∧
    (stepTween geo stF stF.gen 1).rotation =
      (-(geo.centroid c2).1, -(geo.centroid c2).2) ∧
    (stepTween geo stF stF.gen 1).scale = st.baseProjectionScale * z2 := by
  have hstG := zoomOnCountry_hit_state geo st n1 c1 z1 0 0 h1
  have hcG : stG.countriesGeoJson = st.countriesGeoJson := by rw [hG, hstG]
  have hbG : stG.baseProjectionScale = st.baseProjectionScale := by rw [hG, hstG]
  have hcM : mid.countriesGeoJson = st.countriesGeoJson := by
    rw [hM, (stepTween_preserves geo stG stG.gen t0).1, hcG]
  have hbM : mid.baseProjectionScale = st.baseProjectionScale := by
    rw [hM, (stepTween_preserves geo stG stG.gen t0).2.2, hbG]
  have hgM : mid.gen = stG.gen := (hM ▸ (stepTween_preserves geo stG stG.gen t0).2.1)
  have h2M : getCountryGeoJson mid n2 = some c2 := by
    rw [getCountryGeoJson_congr n2 (hcM.trans rfl)]
    exact h2
  have hstF := zoomOnCountry_hit_state geo mid n2 c2 z2 0 0 h2M
  have hgF : stF.gen = mid.gen + 1 := by rw [hF, hstF]
  have hne : stG.gen ≠ stF.gen := by
    rw [hgF, hgM]
    exact Nat.ne_of_lt (Nat.lt_succ_self _)
  refine ⟨foldl_stepTween_stale geo ts stF stG.gen hne, ?_⟩
  have hsess : stF.session = some
      { rotAnim := some (mid.rotation,
          (-(geo.centroid c2).1 - 0, -(geo.centroid c2).2 - 0)),
        scaleAnim := some (mid.scale, mid.baseProjectionScale * z2) } := by
    rw [hF, hstF]
  have hfinal := stepTween_one_rotation_scale geo stF mid.rotation
    (-(geo.centroid c2).1 - 0, -(geo.centroid c2).2 - 0)
    mid.scale (mid.baseProjectionScale * z2) hsess hI
  refine ⟨?_, ?_⟩
  · rw [hfinal.1]
    exact Prod.ext (by ring) (by ring)
  · rw [hfinal.2, hbM]

/-- C10 witness: an in-flight zoom to Germany superseded at progress 1/2
by a zoom to France, with two stale Germany steps fired afterwards. -/
theorem latest_session_wins_witness :
    ([(1/4 : ℚ), 3/4].foldl
      (fun s t => stepTween demoGeo s
        (zoomOnCountry demoGeo demoState "Germany" (ZoomArg.num 5) 0 0).gen t)
      (zoomOnCountry demoGeo
        (stepTween demoGeo (zoomOnCountry demoGeo demoState "Germany" (ZoomArg.num 5) 0 0)
          (zoomOnCountry demoGeo demoState "Germany" (ZoomArg.num 5) 0 0).gen (1/2))
        "France" (ZoomArg.num 7) 0 0)) =
      zoomOnCountry demoGeo
        (stepTween demoGeo (zoomOnCountry demoGeo demoState "Germany" (ZoomArg.num 5) 0 0)
          (zoomOnCountry demoGeo demoState "Germany" (ZoomArg.num 5) 0 0).gen (1/2))
        "France" (ZoomArg.num 7) 0 0 ∧
    (stepTween demoGeo
      (zoomOnCountry demoGeo
        (stepTween demoGeo (zoomOnCountry demoGeo demoState "Germany" (ZoomArg.num 5) 0 0)
          (zoomOnCountry demoGeo demoState "Germany" (ZoomArg.num 5) 0 0).gen (1/2))
        "France" (ZoomArg.num 7) 0 0)
      (zoomOnCountry demoGeo
        (stepTween demoGeo (zoomOnCountry demoGeo demoState "Germany" (ZoomArg.num 5) 0 0)
          (zoomOnCountry demoGeo demoState "Germany" (ZoomArg.num 5) 0 0).gen (1/2))
        "France" (ZoomArg.num 7) 0 0).gen 1).rotation =
      (-(demoGeo.centroid { id := 250, name := "France" }).1,
       -(demoGeo.centroid { id := 250, name := "France" }).2) ∧
    (stepTween demoGeo
      (zoomOnCountry demoGeo
        (stepTween demoGeo (zoomOnCountry demoGeo demoState "Germany" (ZoomArg.num 5) 0 0)
          (zoomOnCountry demoGeo demoState "Germany" (ZoomArg.num 5) 0 0).gen (1/2))
        "France" (ZoomArg.num 7) 0 0)
      (zoomOnCountry demoGeo
        (stepTween demoGeo (zoomOnCountry demoGeo demoState "Germany" (ZoomArg.num 5) 0 0)
          (zoomOnCountry demoGeo demoState "Germany" (ZoomArg.num 5) 0 0).gen (1/2))
        "France" (ZoomArg.num 7) 0 0).gen 1).scale =
      demoState.baseProjectionScale * 7 :=
  latest_session_wins demoGeo demoState "Germany" "France"
    { id := 276, name := "Germany" } { id := 250, name := "France" } 5 7 (1/2)
    [(1/4 : ℚ), 3/4] _ _ _
    (by decide) (by decide)
    (by intro a b; apply Prod.ext <;> simp [demoGeo])
    rfl rfl rfl

/-! ## C1: highlight / isHighlighted / unhighlight roundtrip -/

theorem highlightCountry_already (st : GlobeState) (n : String) (color : Option String)
    (r : Bool) (cg : Country) (h : getCountryGeoJson st n = some cg)
    (hH : isCountryHighlighted st n = true) :
    highlightCountry st n color r = st := by
  unfold highlightCountry
  rw [h]
  dsimp only
  rw [if_pos hH]

theorem highlightCountry_push (st : GlobeState) (n : String) (color : Option String)
    (r : Bool) (cg : Country) (h : getCountryGeoJson st n = some cg)
    (hH : isCountryHighlighted st n = false) :
    (highlightCountry st n color r).highlightedCountries =
      st.highlightedCountries ++
        [{ id := cg.id, name := jsToLower n,
           color := colorOrDefault color st.settings.highlightColor, geojson := cg }] := by
  unfold highlightCountry
  rw [h]
  dsimp only
  rw [if_neg (by simp [hH])]

theorem isCountryHighlighted_false_iff (st : GlobeState) (n : String) (cg : Country)
    (h : getCountryGeoJson st n = some cg) :
    isCountryHighlighted st n = false ↔
      st.highlightedCountries.find? (fun e => e.id == cg.id) = none := by
  unfold isCountryHighlighted
  rw [h]
  dsimp only
  cases hf : st.highlightedCountries.find? (fun e => e.id == cg.id) with
  | none => simp
  | some x => simp

theorem highlight_then_highlighted (st : GlobeState) (n m : String) (color : Option String)
    (c' : Country) (h : getCountryGeoJson st n = some c')
    (hm : jsToLower m = jsToLower n) :
    isCountryHighlighted (highlightCountry st n color) m = true := by
  have hm' : getCountryGeoJson st m = some c' := by
    rw [getCountryGeoJson_key_congr st hm]
    exact h
  by_cases hH : isCountryHighlighted st n
  · rw [highlightCountry_already st n color true c' h hH]
    unfold isCountryHighlighted at hH ⊢
    rw [h] at hH
    rw [hm']
    exact hH
  · have hH' : isCountryHighlighted st n = false := by
      revert hH
      cases isCountryHighlighted st n <;> simp
    have hl1 := highlightCountry_push st n color true c' h hH'
    have hres : getCountryGeoJson (highlightCountry st n color) m = some c' := by
      rw [getCountryGeoJson_congr m (highlightCountry_countriesGeoJson st n color true)]
      exact hm'
    unfold isCountryHighlighted
    rw [hres]
    dsimp only
    rw [hl1, List.find?_append]
    rw [isCountryHighlighted_false_iff st n c' h] at hH'
    rw [hH']
    simp

theorem removeFirst_found (l : List HighlightEntry) (key : String) (e : HighlightEntry)
    (he : e ∈ l) (hk : e.name = key) :
    (removeFirstHighlightByName l key).2 = true := by
  induction l with
  | nil => cases he
  | cons a rest ih =>
    rw [removeFirstHighlightByName]
    by_cases ha : a.name = key
    · rw [if_pos (beq_iff_eq.mpr ha)]
    · rcases List.mem_cons.mp he with rfl | he'
      · exact absurd hk ha
      · rw [if_neg (by simp [ha])]
        exact ih he'

theorem removeFirst_clears (l : List HighlightEntry) (key : String) (i : Nat)
    (hpair : l.Pairwise (fun a b => a.id ≠ b.id))
    (hiff : ∀ e ∈ l, (e.name = key ↔ e.id = i)) :
    ∀ f ∈ (removeFirstHighlightByName l key).1, f.id ≠ i := by
  induction l with
  | nil =>
    intro f hf
    rw [removeFirstHighlightByName] at hf
    cases hf
  | cons a rest ih =>
    intro f hf
    rw [removeFirstHighlightByName] at hf
    by_cases ha : a.name = key
    · rw [if_pos (beq_iff_eq.mpr ha)] at hf
      have hai : a.id = i := (hiff a (List.mem_cons_self a rest)).mp ha
      have hne := (List.pairwise_cons.mp hpair).1 f hf
      intro hfi
      exact hne (hai.trans hfi.symm)
    · rw [if_neg (by simp [ha])] at hf
      rcases List.mem_cons.mp hf with rfl | hf'
      · intro hfi
        exact ha ((hiff f (List.mem_cons_self f rest)).mpr hfi)
      · exact ih (List.pairwise_cons.mp hpair).2
          (fun e he => hiff e (List.mem_cons_of_mem a he)) f hf'

theorem inv_entry_name_iff (st : GlobeState) (c' : Country) (key : String)
    (hInv : HighlightInv st) (hN : UniqueLowerNames st.countriesGeoJson)
    (hD : IdDeterminesName st.countriesGeoJson)
    (hc'mem : c' ∈ st.countriesGeoJson)
    (hkey : jsToLower c'.name = key) :
    ∀ e ∈ st.highlightedCountries, (e.name = key ↔ e.id = c'.id) := by
  intro e he
  obtain ⟨c3, hc3mem, hid, hname⟩ := hInv.2 e he
  constructor
  · intro hek
    have : jsToLower c3.name = jsToLower c'.name := by
      rw [← hname, hek, ← hkey]
    rw [hid]
    exact hN c3 hc3mem c' hc'mem this
  · intro hei
    have : jsToLower c3.name = jsToLower c'.name :=
      hD c3 hc3mem c' hc'mem (by rw [← hid, hei])
    rw [hname, this, hkey]

/-- C1: for every country of the dataset and every color, highlighting
it makes `isCountryHighlighted` report `true`, and unhighlighting it
afterwards makes `isCountryHighlighted` report `false`; each of the four
calls may use any letter case of the country's name.  The hypotheses are
the reachable-state invariant of the highlighted set and the spec's
dataset assumption that lowercased names and ids determine each other. -/
theorem highlight_unhighlight_roundtrip (st : GlobeState) (C : Country)
    (n1 n2 n3 n4 : String) (color : Option String)
    (hC : C ∈ st.countriesGeoJson)
    (h1 : jsToLower n1 = jsToLower C.name)
    (h2 : jsToLower n2 = jsToLower C.name)
    (h3 : jsToLower n3 = jsToLower C.name)
    (h4 : jsToLower n4 = jsToLower C.name)
    (hInv : HighlightInv st)
    (hN : UniqueLowerNames st.countriesGeoJson)
    (hD : IdDeterminesName st.countriesGeoJson) :
    isCountryHighlighted (highlightCountry st n1 color) n2 = true ∧
    isCountryHighlighted (unhighlightCountry (highlightCountry st n1 color) n3) n4 = false := by
  -- the name resolves: the dataset contains C, whose lowercased name is n1's key
  have hCpred : (jsToLower C.name == jsToLower n1) = true := beq_iff_eq.mpr h1.symm
  have hsome : (st.countriesGeoJson.find? (fun c => jsToLower c.name == jsToLower n1)).isSome :=
    List.find?_isSome.mpr ⟨C, hC, hCpred⟩
  obtain ⟨c', hfind⟩ := Option.isSome_iff_exists.mp hsome
  have hres : getCountryGeoJson st n1 = some c' := hfind
  have hc'mem : c' ∈ st.countriesGeoJson := List.mem_of_find?_eq_some hfind
  have hc'name : jsToLower c'.name = jsToLower n1 := by simpa using List.find?_some hfind
  refine ⟨highlight_then_highlighted st n1 n2 color c' hres (h2.trans h1.symm), ?_⟩
  -- facts about the state after the highlight call
  have hcoun1 : (highlightCountry st n1 color).countriesGeoJson = st.countriesGeoJson :=
    highlightCountry_countriesGeoJson st n1 color true
  have hkey3 : jsToLower c'.name = jsToLower n3 := by rw [hc'name, h1, ← h3]
  -- the highlighted set after the call: pairwise-distinct ids, the
  -- name/id correspondence for the removal key, and an entry with c'.id
  have hfacts :
      (highlightCountry st n1 color).highlightedCountries.Pairwise (fun a b => a.id ≠ b.id) ∧
      (∀ e ∈ (highlightCountry st n1 color).highlightedCountries,
        (e.name = jsToLower n3 ↔ e.id = c'.id)) ∧
      (∃ e ∈ (highlightCountry st n1 color).highlightedCountries, e.id = c'.id) := by
    by_cases hH : isCountryHighlighted st n1
    · rw [highlightCountry_already st n1 color true c' hres hH]
      refine ⟨hInv.1, inv_entry_name_iff st c' (jsToLower n3) hInv hN hD hc'mem hkey3, ?_⟩
      -- hH true means the find?-by-id scan found an entry
      cases hf : st.highlightedCountries.find? (fun e => e.id == c'.id) with
      | none =>
        rw [← isCountryHighlighted_false_iff st n1 c' hres] at hf
        rw [hH] at hf
        cases hf
      | some e =>
        exact ⟨e, List.mem_of_find?_eq_some hf, by simpa using List.find?_some hf⟩
    · have hH' : isCountryHighlighted st n1 = false := by
        revert hH
        cases isCountryHighlighted st n1 <;> simp
      have hold : ∀ f ∈ st.highlightedCountries, f.id ≠ c'.id := by
        intro f hf
        have hnone := (isCountryHighlighted_false_iff st n1 c' hres).mp hH'
        have := List.find?_eq_none.mp hnone f hf
        simpa using this
      rw [highlightCountry_push st n1 color true c' hres hH']
      refine ⟨?_, ?_, ?_⟩
      · rw [List.pairwise_append]
        refine ⟨hInv.1, List.pairwise_singleton _ _, ?_⟩
        intro a ha b hb
        rw [List.mem_singleton.mp hb]
        exact hold a ha
      · intro e he
        rcases List.mem_append.mp he with he' | he'
        · exact inv_entry_name_iff st c' (jsToLower n3) hInv hN hD hc'mem hkey3 e he'
        · rw [List.mem_singleton.mp he']
          constructor
          · intro _
            rfl
          · intro _
            show jsToLower n1 = jsToLower n3
            rw [h1, ← h3]
      · exact ⟨_, List.mem_append_right _ (List.mem_singleton_self _), rfl⟩
  obtain ⟨hpair1, hiff1, e0, he0mem, he0id⟩ := hfacts
  -- the unhighlight call finds and removes exactly that entry
  have hfound : (removeFirstHighlightByName
      (highlightCountry st n1 color).highlightedCountries (jsToLower n3)).2 = true :=
    removeFirst_found _ _ e0 he0mem ((hiff1 e0 he0mem).mpr he0id)
  have hclears := removeFirst_clears _ _ _ hpair1 hiff1
  -- the unhighlight call keeps exactly the list the scan left behind
  have hl2 : (unhighlightCountry (highlightCountry st n1 color) n3).highlightedCountries =
      (removeFirstHighlightByName
        (highlightCountry st n1 color).highlightedCountries (jsToLower n3)).1 := by
    unfold unhighlightCountry
    dsimp only
    rw [if_pos hfound]
  -- the final isCountryHighlighted call resolves n4 to c' and scans a
  -- list with no entry carrying c'.id
  have hres4 : getCountryGeoJson (unhighlightCountry (highlightCountry st n1 color) n3) n4 =
      some c' := by
    rw [getCountryGeoJson_congr n4 (by rw [unhighlightCountry_countriesGeoJson, hcoun1] :
      (unhighlightCountry (highlightCountry st n1 color) n3).countriesGeoJson =
        st.countriesGeoJson)]
    rw [getCountryGeoJson_key_congr st (show jsToLower n4 = jsToLower n1 by rw [h4, ← h1])]
    exact hres
  unfold isCountryHighlighted
  rw [hres4]
  dsimp only
  rw [hl2, List.find?_eq_none.mpr (fun f hf => by simpa using hclears f hf)]

/-- C1 witness: the roundtrip on the demo dataset's Germany, with a
different letter case at every call. -/
theorem highlight_unhighlight_roundtrip_witness :
    isCountryHighlighted (highlightCountry demoState "GERMANY" (some "red")) "gerMANY" = true ∧
    isCountryHighlighted
      (unhighlightCountry (highlightCountry demoState "GERMANY" (some "red")) "Germany")
      "germany" = false :=
  highlight_unhighlight_roundtrip demoState { id := 276, name := "Germany" }
    "GERMANY" "gerMANY" "Germany" "germany" (some "red")
    (by decide) (by decide) (by decide) (by decide) (by decide)
    (by unfold HighlightInv; refine ⟨?_, ?_⟩ <;> simp [demoState])
    (by unfold UniqueLowerNames; decide)
    (by unfold IdDeterminesName; decide)

end GlobeMap
